import Mathlib

set_option autoImplicit false

/-!
Shallow embedding of `src/bot.py`, a Telegram bot that gates a private video
archive behind required-channel membership, resolves requests by exact id
(deep link) or by name search against a SQLite table, delivers content by
copying the archived message, and schedules deletion of delivered messages
after a fixed delay.

External effects (the Telegram transport and the SQLite connection) are made
explicit: lookups and sends are oracle parameters, the `videos` table is a
`List VideoRecord` in rowid order, and each handler returns the replies it
sent together with the cleanup task it scheduled, if any.
-/

namespace LexoFilm

/-- The configured required channels, `CHANNELS_TO_JOIN` in `bot.py` (line 24). -/
def CHANNELS_TO_JOIN : List String := ["@lexobit"]

/-- The chat-member statuses the gate accepts (`bot.py` line 45). -/
def memberStatuses : List String := ["member", "administrator", "creator"]

/-- Embedding of `is_user_member` (`bot.py` lines 40-49). The external
`context.bot.get_chat_member` call for the requesting user is abstracted as
`getChatMember : String → Except Unit String`, giving the status string for a
channel or an error for a raised exception. The loop returns `false` as soon
as one channel errors or reports a status outside `memberStatuses`, and `true`
only after every configured channel passed. -/
def is_user_member (getChatMember : String → Except Unit String) :
    List String → Bool
  | [] => true
  | channel :: rest =>
    match getChatMember channel with
    | .error _ => false
    | .ok status =>
      if memberStatuses.contains status then is_user_member getChatMember rest
      else false

/-- ASCII upper-casing of one character, as the SQLite default `LIKE` applies
before comparing ordinary pattern characters. -/
def asciiUpper (c : Char) : Char :=
  if 'a' ≤ c ∧ c ≤ 'z' then Char.ofNat (c.toNat - 32) else c

/-- SQLite `LIKE` pattern matching over characters: `%` matches any sequence,
`_` matches any single character, and ordinary characters compare
ASCII-case-insensitively (the `case_sensitive_like` pragma defaults to off and
`bot.py` never changes it). The `%` case matches the rest of the pattern
against every suffix of the subject. -/
def likeChars : List Char → List Char → Bool
  | [], s => s.isEmpty
  | p :: ps, s =>
    if p = '%' then s.tails.any (fun t => likeChars ps t)
    else
      match s with
      | [] => false
      | c :: s1 =>
        if p = '_' then likeChars ps s1
        else asciiUpper p == asciiUpper c && likeChars ps s1

/-- The match predicate of the queries `... WHERE name LIKE ?` bound to the
pattern built as `f"%{query}%"` in Python (`bot.py` lines 126, 172, 190, 193):
`name` matches the pattern percent, then the query characters, then percent. -/
def sqlLikeAny (query name : String) : Bool :=
  likeChars ('%' :: (query.toList ++ ['%'])) name.toList

/-- Python `str.strip()` on the caption (`bot.py` line 214): leading and
trailing whitespace removed (modelled for ASCII whitespace). -/
def pyStrip (s : String) : String :=
  String.mk
    (((s.toList.dropWhile Char.isWhitespace).reverse.dropWhile
        Char.isWhitespace).reverse)

/-- A row of the `videos` table (`bot.py` line 34):
`id INTEGER PRIMARY KEY, name TEXT NOT NULL UNIQUE, message_id INTEGER`.
A database is a `List VideoRecord` in rowid order. -/
structure VideoRecord where
  id : Int
  name : String
  message_id : Nat
deriving DecidableEq

/-- The rowid SQLite assigns to a fresh `INSERT` into `videos` that omits the
`id` column: one more than the largest existing id (the table only ever
receives auto-assigned ids, so ids are positive and strictly growing). -/
def nextId (db : List VideoRecord) : Int :=
  (db.map (fun r => r.id)).foldl max 0 + 1

/-- Decimal digit run to a number; `none` when empty or not all digits. -/
def decDigits? (ds : List Char) : Option Nat :=
  if ds = [] then none
  else if ds.all Char.isDigit then
    some (ds.foldl (fun a c => a * 10 + (c.toNat - 48)) 0)
  else none

/-- SQLite comparison of the `INTEGER` column `id` against a bound TEXT
parameter (`SELECT message_id FROM videos WHERE id = ?` receives the deep-link
argument as a string, `bot.py` line 89): the column has INTEGER affinity, so
the text operand is converted to a number when it is a well-formed signed
decimal integer literal, and compares equal to no integer otherwise. (Real
literals, which SQLite would also convert, are outside the deep-link grammar
`?start=ID` and are not modelled.) -/
def sqlTextToInt (s : String) : Option Int :=
  match s.toList with
  | '-' :: ds => (decDigits? ds).map (fun n => -(n : Int))
  | '+' :: ds => (decDigits? ds).map (fun n => (n : Int))
  | ds => (decDigits? ds).map (fun n => (n : Int))

/-- Resolution by identifier (`bot.py` lines 88-91): `fetchone` on
`SELECT message_id FROM videos WHERE id = ?` — the first row in rowid order
whose id equals the converted argument (ids are unique, so also the only one). -/
def findById (db : List VideoRecord) (arg : String) : Option VideoRecord :=
  match sqlTextToInt arg with
  | none => none
  | some n => db.find? (fun r => r.id == n)

/-- Resolution by name (`bot.py` lines 125-127): `fetchone` on
`SELECT message_id FROM videos WHERE name LIKE ?` with pattern `%query%` —
the first row in rowid order whose name LIKE-matches. -/
def findByNameLike (db : List VideoRecord) (query : String) : Option VideoRecord :=
  db.find? (fun r => sqlLikeAny query r.name)

/-- Does `needle` start `hay` (character-exact)? -/
def chStarts : List Char → List Char → Bool
  | [], _ => true
  | _ :: _, [] => false
  | a :: as, b :: bs => a == b && chStarts as bs

/-- Does `needle` occur contiguously inside `hay` (character-exact)? -/
def chContains (needle : List Char) : List Char → Bool
  | [] => needle.isEmpty
  | c :: rest => chStarts needle (c :: rest) || chContains needle rest

/-- From the spec (§4.1): `findByNameSubstring` is claimed to perform a
case-sensitive substring match of the query against stored names. This is that
spec-side match predicate, kept for comparison with the source-side
`sqlLikeAny`. -/
def specSubstringMatch (query name : String) : Bool :=
  chContains query.toList name.toList

/-- The user-visible replies a request handler can send. Message texts are
abstracted to constructors; `detail` carries the interpolated exception text
of the f-string error replies. -/
inductive Reply where
  | joinPrompt (buttonUrls : List String)
  | menu
  | askName
  | deletionWarning
  | sendError (detail : String)
  | invalidLink
  | searchNotFound
deriving DecidableEq

/-- The join-button URL built per required channel (`bot.py` lines 80, 111):
`https://t.me/` plus the channel name with every leading `@` stripped, as
Python `lstrip` does. -/
def joinButtonUrl (channel : String) : String :=
  "https://t.me/" ++ String.mk (channel.toList.dropWhile (fun c => c == '@'))

/-- What one handler invocation did: the replies it sent, the cleanup task it
passed to `asyncio.create_task` if any (chat id, message ids to delete, delay
seconds), whether it invoked `copy_message`, the archive message id it copied
from, and whether it called `is_user_member` (membership-check
instrumentation; the flag records the call sites present in the source). -/
structure HandlerOutcome where
  replies : List Reply
  scheduled : Option (Nat × List Nat × Nat)
  copyAttempted : Bool
  copiedFrom : Option Nat
  gateChecked : Bool
deriving DecidableEq

/-- Embedding of `send_video_by_id` (`bot.py` lines 75-102). External effects
are oracles: `getChatMember` backs the membership lookups, `copyRes` is the
outcome of the `copy_message` call (the new message id, or the raised
exception text), `warnRes` the outcome of the warning `reply_text` call. The
`try` block covers the copy, the warning and the task creation; its `except`
branch replies with the failure detail and creates no task. -/
def send_video_by_id (getChatMember : String → Except Unit String)
    (db : List VideoRecord) (chat_id : Nat)
    (copyRes warnRes : Except String Nat) (video_id : String) : HandlerOutcome :=
  if !(is_user_member getChatMember CHANNELS_TO_JOIN) then
    { replies := [.joinPrompt (CHANNELS_TO_JOIN.map joinButtonUrl)],
      scheduled := none, copyAttempted := false, copiedFrom := none,
      gateChecked := true }
  else
    match findById db video_id with
    | some r =>
      match copyRes with
      | .error e =>
        { replies := [.sendError e], scheduled := none, copyAttempted := true,
          copiedFrom := some r.message_id, gateChecked := true }
      | .ok sentId =>
        match warnRes with
        | .error e =>
          { replies := [.sendError e], scheduled := none,
            copyAttempted := true, copiedFrom := some r.message_id,
            gateChecked := true }
        | .ok warnId =>
          { replies := [.deletionWarning],
            scheduled := some (chat_id, [sentId, warnId], 30),
            copyAttempted := true, copiedFrom := some r.message_id,
            gateChecked := true }
    | none =>
      { replies := [.invalidLink], scheduled := none, copyAttempted := false,
        copiedFrom := none, gateChecked := true }

/-- The two conversation-handler states: `GET_MOVIE_NAME = 1` (`bot.py`
line 27) and `ConversationHandler.END`. -/
inductive ConvState where
  | END
  | GET_MOVIE_NAME
deriving DecidableEq

/-- Embedding of `ask_for_movie_name` (`bot.py` lines 106-120): gate, then
either the join prompt ending the conversation, or the query prompt moving it
to `GET_MOVIE_NAME`. -/
def ask_for_movie_name (getChatMember : String → Except Unit String) :
    HandlerOutcome × ConvState :=
  if !(is_user_member getChatMember CHANNELS_TO_JOIN) then
    ({ replies := [.joinPrompt (CHANNELS_TO_JOIN.map joinButtonUrl)],
       scheduled := none, copyAttempted := false, copiedFrom := none,
       gateChecked := true }, .END)
  else
    ({ replies := [.askName], scheduled := none, copyAttempted := false,
       copiedFrom := none, gateChecked := true }, .GET_MOVIE_NAME)

/-- Embedding of `search_received_movie_name` (`bot.py` lines 122-142):
resolve the received text by name LIKE-match and deliver. Note that this
handler performs no membership lookup. -/
def search_received_movie_name (db : List VideoRecord) (chat_id : Nat)
    (copyRes warnRes : Except String Nat) (query : String) :
    HandlerOutcome × ConvState :=
  match findByNameLike db query with
  | some r =>
    ((match copyRes with
      | .error e =>
        { replies := [.sendError e], scheduled := none, copyAttempted := true,
          copiedFrom := some r.message_id, gateChecked := false }
      | .ok sentId =>
        match warnRes with
        | .error e =>
          { replies := [.sendError e], scheduled := none,
            copyAttempted := true, copiedFrom := some r.message_id,
            gateChecked := false }
        | .ok warnId =>
          { replies := [.deletionWarning],
            scheduled := some (chat_id, [sentId, warnId], 30),
            copyAttempted := true, copiedFrom := some r.message_id,
            gateChecked := false }), .END)
  | none =>
    ({ replies := [.searchNotFound], scheduled := none, copyAttempted := false,
       copiedFrom := none, gateChecked := false }, .END)

/-- Embedding of `start` (`bot.py` lines 53-73): register the user with
`INSERT OR IGNORE INTO users`, then hand off to `send_video_by_id` when a
deep-link argument is present, otherwise show the menu. Returns the updated
user registry and the handler outcome. -/
def start (users : List Nat) (user_id : Nat)
    (getChatMember : String → Except Unit String) (db : List VideoRecord)
    (chat_id : Nat) (copyRes warnRes : Except String Nat)
    (args : List String) : List Nat × HandlerOutcome :=
  let users1 := if users.contains user_id then users else users ++ [user_id]
  match args with
  | a :: _ =>
    (users1, send_video_by_id getChatMember db chat_id copyRes warnRes a)
  | [] =>
    (users1, { replies := [.menu], scheduled := none, copyAttempted := false,
               copiedFrom := none, gateChecked := false })

/-- The admin-facing replies of `delete_video`. -/
inductive DeleteReply where
  | usage
  | deleted (query : String)
  | notFound
deriving DecidableEq

/-- Embedding of `delete_video` (`bot.py` lines 182-199). `query` is the
space-joined argument text; a non-admin caller gets no reply and no change.
The handler first fetches one row matching `name LIKE %query%`; when one
exists it deletes every row matching the same pattern and reports success,
otherwise it reports that nothing was found. -/
def delete_video (isAdmin : Bool) (db : List VideoRecord) (query : String) :
    List VideoRecord × Option DeleteReply :=
  if !isAdmin then (db, none)
  else if query = "" then (db, some .usage)
  else
    match db.find? (fun r => sqlLikeAny query r.name) with
    | some _ =>
      (db.filter (fun r => !(sqlLikeAny query r.name)), some (.deleted query))
    | none => (db, some .notFound)

/-- The admin notices of `index_video`. -/
inductive AdminNotice where
  | noCaption
  | indexedOk (name : String)
  | duplicateName (name : String)
deriving DecidableEq

/-- Embedding of `index_video` (`bot.py` lines 203-221) for a channel post
carrying a video: `INSERT INTO videos (name, message_id) VALUES (?, ?)` with
the stripped caption. The UNIQUE constraint on `name` (BINARY collation, so
exact string equality) raises `sqlite3.IntegrityError` when the stripped
caption equals a stored name; the `except` branch notifies the admin of the
duplicate and the table is left unchanged. A post without a caption is not
indexed and the admin is notified. -/
def index_video (db : List VideoRecord) (caption : Option String)
    (message_id : Nat) : List VideoRecord × AdminNotice :=
  match caption with
  | none => (db, .noCaption)
  | some video_name =>
    if db.any (fun r => r.name == pyStrip video_name) then
      (db, .duplicateName video_name)
    else
      (db ++ [{ id := nextId db, name := pyStrip video_name,
                message_id := message_id }],
       .indexedOk video_name)

/-- Embedding of `delete_messages_after_delay` (`bot.py` lines 223-230). After
the `asyncio.sleep` suspension (elapsed time itself is not modelled), each
message id is attempted in order; `deleteMsg` is the `bot.delete_message`
oracle for the chat, and a failed attempt is caught, logged (recorded here as
its error value) and the loop continues. Returns the attempts in execution
order. -/
def delete_messages_after_delay (deleteMsg : Nat → Except String Unit) :
    List Nat → List (Nat × Except String Unit)
  | [] => []
  | message_id :: rest =>
    (message_id, deleteMsg message_id) ::
      delete_messages_after_delay deleteMsg rest

/-- `query` contains neither SQL wildcard character, so inside a LIKE pattern
it only matches its own characters. -/
def noWildcards (query : String) : Bool :=
  query.toList.all (fun c => !(c == '%') && !(c == '_'))

/-- ASCII-case-insensitive containment of `query` in `name`: the match
semantics the SQLite default LIKE gives the patterns `%query%` of `bot.py`
when `query` has no wildcard characters. -/
def ciContains (query name : String) : Bool :=
  chContains (query.toList.map asciiUpper) (name.toList.map asciiUpper)

theorem chStarts_iff (as bs : List Char) :
    chStarts as bs = true ↔ ∃ t, bs = as ++ t := by
  induction as generalizing bs with
  | nil => simp [chStarts]
  | cons a as ih =>
    cases bs with
    | nil => simp [chStarts]
    | cons b bs =>
      simp only [chStarts, Bool.and_eq_true, beq_iff_eq, ih, List.cons_append,
        List.cons.injEq]
      constructor
      · rintro ⟨rfl, t, rfl⟩
        exact ⟨t, rfl, rfl⟩
      · rintro ⟨t, rfl, rfl⟩
        exact ⟨rfl, t, rfl⟩

theorem chContains_iff (nd hay : List Char) :
    chContains nd hay = true ↔ ∃ p t, hay = p ++ nd ++ t := by
  induction hay with
  | nil =>
    simp only [chContains, List.isEmpty_iff]
    constructor
    · rintro rfl
      exact ⟨[], [], rfl⟩
    · rintro ⟨p, t, h⟩
      rcases List.append_eq_nil.mp (List.append_eq_nil.mp h.symm).1 with ⟨_, h2⟩
      exact h2
  | cons c rest ih =>
    simp only [chContains, Bool.or_eq_true, chStarts_iff, ih]
    constructor
    · rintro (⟨t, h⟩ | ⟨p, t, h⟩)
      · exact ⟨[], t, by simpa using h⟩
      · exact ⟨c :: p, t, by simp [h]⟩
    · rintro ⟨p, t, h⟩
      cases p with
      | nil =>
        left
        exact ⟨t, by simpa using h⟩
      | cons x p =>
        right
        rw [List.cons_append, List.cons_append] at h
        injection h with h1 h2
        exact ⟨p, t, h2⟩

theorem likeChars_pct (ps s : List Char) :
    likeChars ('%' :: ps) s = true ↔
      ∃ s1 s2, s = s1 ++ s2 ∧ likeChars ps s2 = true := by
  have h0 : likeChars ('%' :: ps) s = s.tails.any (fun t => likeChars ps t) := by
    simp [likeChars]
  rw [h0, List.any_eq_true]
  constructor
  · rintro ⟨t, ht, hm⟩
    obtain ⟨s1, rfl⟩ := (List.mem_tails _ _).mp ht
    exact ⟨s1, t, rfl, hm⟩
  · rintro ⟨s1, s2, rfl, hm⟩
    exact ⟨s2, (List.mem_tails _ _).mpr ⟨s1, rfl⟩, hm⟩

theorem likeChars_plain_pct (q : List Char) :
    ∀ (hq : ∀ c ∈ q, c ≠ '%' ∧ c ≠ '_') (s : List Char),
    likeChars (q ++ ['%']) s = true ↔
      ∃ m t, s = m ++ t ∧ q.map asciiUpper = m.map asciiUpper := by
  induction q with
  | nil =>
    intro _ s
    constructor
    · intro _
      exact ⟨[], s, rfl, rfl⟩
    · intro _
      rw [List.nil_append, likeChars_pct]
      exact ⟨s, [], (List.append_nil s).symm, rfl⟩
  | cons a q ih =>
    intro hq s
    have ha := hq a (List.mem_cons_self a q)
    have hq1 : ∀ c ∈ q, c ≠ '%' ∧ c ≠ '_' :=
      fun c hc => hq c (List.mem_cons_of_mem _ hc)
    cases s with
    | nil =>
      rw [List.cons_append, likeChars.eq_2, if_neg ha.1]
      constructor
      · intro h
        exact absurd h (by simp)
      · rintro ⟨m, t, h, hmap⟩
        rcases List.append_eq_nil.mp h.symm with ⟨rfl, -⟩
        exact absurd hmap (by simp)
    | cons c s =>
      rw [List.cons_append, likeChars.eq_3, if_neg ha.1, if_neg ha.2,
        Bool.and_eq_true, beq_iff_eq, ih hq1 s]
      constructor
      · rintro ⟨hac, m, t, rfl, hmap⟩
        exact ⟨c :: m, t, rfl, by simp [hac, hmap]⟩
      · rintro ⟨m, t, h, hmap⟩
        cases m with
        | nil => exact absurd hmap (by simp)
        | cons x m =>
          rw [List.cons_append] at h
          injection h with h1 h2
          subst h1
          subst h2
          rw [List.map_cons, List.map_cons] at hmap
          injection hmap with hm1 hm2
          exact ⟨hm1, m, t, rfl, hm2⟩

theorem map_append_split {α β : Type} (f : α → β) (l : List α)
    (s1 s2 : List β) (h : l.map f = s1 ++ s2) :
    ∃ l1 l2, l = l1 ++ l2 ∧ l1.map f = s1 ∧ l2.map f = s2 := by
  refine ⟨l.take s1.length, l.drop s1.length,
    (List.take_append_drop _ _).symm, ?_, ?_⟩
  · rw [List.map_take, h, List.take_left]
  · rw [List.map_drop, h, List.drop_left]

/-- For a wildcard-free query, the LIKE match of `bot.py` is exactly
ASCII-case-insensitive substring containment. -/
theorem sqlLikeAny_eq_ciContains (query name : String)
    (hq : noWildcards query = true) :
    sqlLikeAny query name = ciContains query name := by
  have hq1 : ∀ c ∈ query.toList, c ≠ '%' ∧ c ≠ '_' := by
    intro c hc
    have := List.all_eq_true.mp hq c hc
    simp only [Bool.and_eq_true, Bool.not_eq_true', beq_eq_false_iff_ne] at this
    exact this
  rw [Bool.eq_iff_iff]
  rw [sqlLikeAny, ciContains, likeChars_pct, chContains_iff]
  constructor
  · rintro ⟨s1, s2, hsp, h2⟩
    rw [likeChars_plain_pct _ hq1] at h2
    obtain ⟨m, t, hsp2, hm⟩ := h2
    refine ⟨s1.map asciiUpper, t.map asciiUpper, ?_⟩
    rw [hsp, hsp2]
    simp [← hm]
  · rintro ⟨p, t, h⟩
    obtain ⟨l1, l23, hsp, h1, h23⟩ :=
      map_append_split asciiUpper name.toList p
        (query.toList.map asciiUpper ++ t) (by rw [h, List.append_assoc])
    obtain ⟨m, l3, hsp2, hm, h3⟩ :=
      map_append_split asciiUpper l23 (query.toList.map asciiUpper) t h23
    refine ⟨l1, m ++ l3, by rw [hsp, hsp2], ?_⟩
    rw [likeChars_plain_pct _ hq1]
    exact ⟨m, l3, rfl, hm.symm⟩

/-- `find?` returns exactly the first list element satisfying the predicate. -/
theorem find?_first_iff {α : Type} (p : α → Bool) (l : List α) (r : α) :
    l.find? p = some r ↔
      p r = true ∧ ∃ l1 l2, l = l1 ++ r :: l2 ∧ ∀ x ∈ l1, p x = false := by
  induction l with
  | nil => simp
  | cons a l ih =>
    by_cases ha : p a = true
    · rw [List.find?_cons_of_pos _ ha]
      constructor
      · intro h
        injection h with h
        subst h
        exact ⟨ha, [], l, rfl, by simp⟩
      · rintro ⟨hr, l1, l2, heq, h1⟩
        cases l1 with
        | nil =>
          rw [List.nil_append] at heq
          injection heq with e1 e2
          rw [e1]
        | cons x l1 =>
          rw [List.cons_append] at heq
          injection heq with e1 e2
          subst e1
          exact absurd ha (by simp [h1 a (List.mem_cons_self a l1)])
    · rw [List.find?_cons_of_neg _ ha, ih]
      constructor
      · rintro ⟨hr, l1, l2, rfl, h1⟩
        refine ⟨hr, a :: l1, l2, rfl, ?_⟩
        intro x hx
        rcases List.mem_cons.mp hx with rfl | hx1
        · exact Bool.eq_false_iff.mpr ha
        · exact h1 x hx1
      · rintro ⟨hr, l1, l2, heq, h1⟩
        cases l1 with
        | nil =>
          rw [List.nil_append] at heq
          injection heq with e1 e2
          subst e1
          exact absurd hr ha
        | cons x l1 =>
          rw [List.cons_append] at heq
          injection heq with e1 e2
          subst e1
          subst e2
          exact ⟨hr, l1, l2, rfl, fun y hy => h1 y (List.mem_cons_of_mem _ hy)⟩

theorem send_video_by_id_not_member (g : String → Except Unit String)
    (db : List VideoRecord) (chat : Nat) (c w : Except String Nat) (v : String)
    (hm : is_user_member g CHANNELS_TO_JOIN = false) :
    send_video_by_id g db chat c w v =
      { replies := [.joinPrompt (CHANNELS_TO_JOIN.map joinButtonUrl)],
        scheduled := none, copyAttempted := false, copiedFrom := none,
        gateChecked := true } := by
  simp [send_video_by_id, hm]

theorem send_video_by_id_copy_error (g : String → Except Unit String)
    (db : List VideoRecord) (chat : Nat) (w : Except String Nat) (v : String)
    (r : VideoRecord) (e : String)
    (hm : is_user_member g CHANNELS_TO_JOIN = true)
    (hf : findById db v = some r) :
    send_video_by_id g db chat (.error e) w v =
      { replies := [.sendError e], scheduled := none, copyAttempted := true,
        copiedFrom := some r.message_id, gateChecked := true } := by
  simp [send_video_by_id, hm, hf]

theorem send_video_by_id_warn_error (g : String → Except Unit String)
    (db : List VideoRecord) (chat : Nat) (sid : Nat) (v : String)
    (r : VideoRecord) (e : String)
    (hm : is_user_member g CHANNELS_TO_JOIN = true)
    (hf : findById db v = some r) :
    send_video_by_id g db chat (.ok sid) (.error e) v =
      { replies := [.sendError e], scheduled := none, copyAttempted := true,
        copiedFrom := some r.message_id, gateChecked := true } := by
  simp [send_video_by_id, hm, hf]

theorem send_video_by_id_delivered (g : String → Except Unit String)
    (db : List VideoRecord) (chat : Nat) (sid wid : Nat) (v : String)
    (r : VideoRecord)
    (hm : is_user_member g CHANNELS_TO_JOIN = true)
    (hf : findById db v = some r) :
    send_video_by_id g db chat (.ok sid) (.ok wid) v =
      { replies := [.deletionWarning], scheduled := some (chat, [sid, wid], 30),
        copyAttempted := true, copiedFrom := some r.message_id,
        gateChecked := true } := by
  simp [send_video_by_id, hm, hf]

theorem send_video_by_id_not_found (g : String → Except Unit String)
    (db : List VideoRecord) (chat : Nat) (c w : Except String Nat) (v : String)
    (hm : is_user_member g CHANNELS_TO_JOIN = true)
    (hf : findById db v = none) :
    send_video_by_id g db chat c w v =
      { replies := [.invalidLink], scheduled := none, copyAttempted := false,
        copiedFrom := none, gateChecked := true } := by
  simp [send_video_by_id, hm, hf]

theorem search_copy_error (db : List VideoRecord) (chat : Nat)
    (w : Except String Nat) (q : String) (r : VideoRecord) (e : String)
    (hf : findByNameLike db q = some r) :
    search_received_movie_name db chat (.error e) w q =
      ({ replies := [.sendError e], scheduled := none, copyAttempted := true,
         copiedFrom := some r.message_id, gateChecked := false }, .END) := by
  simp [search_received_movie_name, hf]

theorem search_warn_error (db : List VideoRecord) (chat : Nat) (sid : Nat)
    (q : String) (r : VideoRecord) (e : String)
    (hf : findByNameLike db q = some r) :
    search_received_movie_name db chat (.ok sid) (.error e) q =
      ({ replies := [.sendError e], scheduled := none, copyAttempted := true,
         copiedFrom := some r.message_id, gateChecked := false }, .END) := by
  simp [search_received_movie_name, hf]

theorem search_delivered (db : List VideoRecord) (chat : Nat) (sid wid : Nat)
    (q : String) (r : VideoRecord)
    (hf : findByNameLike db q = some r) :
    search_received_movie_name db chat (.ok sid) (.ok wid) q =
      ({ replies := [.deletionWarning],
         scheduled := some (chat, [sid, wid], 30), copyAttempted := true,
         copiedFrom := some r.message_id, gateChecked := false }, .END) := by
  simp [search_received_movie_name, hf]

theorem search_not_found (db : List VideoRecord) (chat : Nat)
    (c w : Except String Nat) (q : String)
    (hf : findByNameLike db q = none) :
    search_received_movie_name db chat c w q =
      ({ replies := [.searchNotFound], scheduled := none,
         copyAttempted := false, copiedFrom := none, gateChecked := false },
       .END) := by
  simp [search_received_movie_name, hf]

/-- C1: the membership gate is fail-closed: for any membership-lookup oracle
and any configured channel list, `is_user_member` returns `true` exactly when
every required channel reports one of the statuses member, administrator or
creator; hence it returns `false` whenever any one lookup raises or reports a
status outside that set. -/
theorem C1_gate_fail_closed (getChatMember : String → Except Unit String)
    (channels : List String) :
    is_user_member getChatMember channels = true ↔
      ∀ ch ∈ channels,
        ∃ s, getChatMember ch = .ok s ∧ s ∈ memberStatuses := by
  induction channels with
  | nil => simp [is_user_member]
  | cons c rest ih =>
    cases hg : getChatMember c with
    | error e =>
      simp only [is_user_member, hg]
      constructor
      · intro h
        exact absurd h (by simp)
      · intro h
        obtain ⟨s, hs, _⟩ := h c (List.mem_cons_self c rest)
        rw [hg] at hs
        exact absurd hs (by simp)
    | ok s =>
      simp only [is_user_member, hg]
      by_cases hs : memberStatuses.contains s = true
      · rw [if_pos hs, ih]
        constructor
        · intro h ch hch
          rcases List.mem_cons.mp hch with rfl | hch1
          · exact ⟨s, hg, by simpa using hs⟩
          · exact h ch hch1
        · intro h ch hch
          exact h ch (List.mem_cons_of_mem _ hch)
      · rw [if_neg hs]
        constructor
        · intro h
          exact absurd h (by simp)
        · intro h
          obtain ⟨s1, hs1, hmem⟩ := h c (List.mem_cons_self c rest)
          rw [hg] at hs1
          injection hs1 with hs1
          subst hs1
          exact absurd (by simpa using hmem) hs

/-- C2 counterexample: with the single stored record named `Matrix`, the query
`matrix` resolves that record even though `matrix` is not a case-sensitive
substring of `Matrix`: the store match is the SQLite default LIKE, which is
ASCII-case-insensitive, so the claimed case-sensitive matching is false. -/
theorem C2_counterexample :
    findByNameLike [⟨1, "Matrix", 11⟩] "matrix" = some ⟨1, "Matrix", 11⟩ ∧
    specSubstringMatch "matrix" "Matrix" = false := by
  exact ⟨rfl, rfl⟩

/-- C2 (amended): for stored records and a query free of the SQL wildcard
characters `%` and `_`, name resolution is an ASCII-case-insensitive substring
match of the query against stored names; it returns `none` exactly when no
stored name contains the query case-insensitively, and it returns a record
exactly when that record is the first match in the store order. -/
theorem C2_first_ci_match (db : List VideoRecord) (query : String)
    (hq : noWildcards query = true) :
    (findByNameLike db query = none ↔
      ∀ r ∈ db, ciContains query r.name = false) ∧
    (∀ r, findByNameLike db query = some r ↔
      ciContains query r.name = true ∧
      ∃ l1 l2, db = l1 ++ r :: l2 ∧
        ∀ x ∈ l1, ciContains query x.name = false) := by
  have hpred : (fun r : VideoRecord => sqlLikeAny query r.name) =
      (fun r : VideoRecord => ciContains query r.name) :=
    funext fun r => sqlLikeAny_eq_ciContains query r.name hq
  constructor
  · rw [findByNameLike, hpred, List.find?_eq_none]
    constructor
    · intro h r hr
      exact Bool.eq_false_iff.mpr (h r hr)
    · intro h r hr
      rw [h r hr]
      simp
  · intro r
    rw [findByNameLike, hpred, find?_first_iff]

/-- C2 witness: instantiation of the amended resolution theorem on a concrete
store and the query `matrix`, with the wildcard-free hypothesis discharged. -/
theorem C2_first_ci_match_witness :
    noWildcards "matrix" = true ∧
    ((findByNameLike [⟨1, "AAA", 7⟩, ⟨2, "The Matrix", 8⟩, ⟨3, "Matrix 2", 9⟩]
        "matrix" = none ↔
      ∀ r ∈ [⟨1, "AAA", 7⟩, ⟨2, "The Matrix", 8⟩,
        (⟨3, "Matrix 2", 9⟩ : VideoRecord)],
        ciContains "matrix" r.name = false) ∧
    (∀ r, findByNameLike
        [⟨1, "AAA", 7⟩, ⟨2, "The Matrix", 8⟩, ⟨3, "Matrix 2", 9⟩]
        "matrix" = some r ↔
      ciContains "matrix" r.name = true ∧
      ∃ l1 l2,
        [⟨1, "AAA", 7⟩, ⟨2, "The Matrix", 8⟩,
          (⟨3, "Matrix 2", 9⟩ : VideoRecord)] = l1 ++ r :: l2 ∧
        ∀ x ∈ l1, ciContains "matrix" x.name = false)) :=
  ⟨by decide,
   C2_first_ci_match [⟨1, "AAA", 7⟩, ⟨2, "The Matrix", 8⟩, ⟨3, "Matrix 2", 9⟩]
     "matrix" (by decide)⟩

theorem index_video_dup (db : List VideoRecord) (n : String) (m : Nat)
    (h : ∃ r ∈ db, r.name = pyStrip n) :
    index_video db (some n) m = (db, .duplicateName n) := by
  obtain ⟨r, hr, hname⟩ := h
  have hany : db.any (fun r => r.name == pyStrip n) = true :=
    List.any_eq_true.mpr ⟨r, hr, by simp [hname]⟩
  simp [index_video, hany]

theorem index_video_fresh (db : List VideoRecord) (n : String) (m : Nat)
    (h : ∀ r ∈ db, r.name ≠ pyStrip n) :
    index_video db (some n) m =
      (db ++ [{ id := nextId db, name := pyStrip n, message_id := m }],
       .indexedOk n) := by
  have hany : ¬(db.any (fun r => r.name == pyStrip n) = true) := by
    rw [List.any_eq_true]
    rintro ⟨r, hr, hb⟩
    exact h r hr (by simpa using hb)
  simp [index_video, hany]

/-- C3: indexing accepts two captions with distinct normalized (stripped)
names; indexing a caption whose normalized name equals that of a record
already stored fails, the duplicate is reported to the administrator, and the
store is unchanged — in particular the original record, locator included, is
still present. -/
theorem C3_duplicate_name_rejected (db : List VideoRecord)
    (n1 n2 n3 : String) (m1 m2 m3 : Nat)
    (hd : pyStrip n1 ≠ pyStrip n2)
    (h1 : ∀ r ∈ db, r.name ≠ pyStrip n1)
    (h2 : ∀ r ∈ db, r.name ≠ pyStrip n2)
    (h3 : pyStrip n3 = pyStrip n1) :
    (index_video db (some n1) m1).2 = .indexedOk n1 ∧
    (index_video (index_video db (some n1) m1).1 (some n2) m2).2 =
      .indexedOk n2 ∧
    index_video (index_video db (some n1) m1).1 (some n3) m3 =
      ((index_video db (some n1) m1).1, .duplicateName n3) ∧
    { id := nextId db, name := pyStrip n1, message_id := m1 } ∈
      (index_video (index_video db (some n1) m1).1 (some n3) m3).1 := by
  have e1 := index_video_fresh db n1 m1 h1
  have hmem1 : ({ id := nextId db, name := pyStrip n1, message_id := m1 }
      : VideoRecord) ∈ (index_video db (some n1) m1).1 := by
    rw [e1]
    simp
  have h2all : ∀ r ∈ (index_video db (some n1) m1).1, r.name ≠ pyStrip n2 := by
    rw [e1]
    intro r hr
    rcases List.mem_append.mp hr with hr1 | hr2
    · exact h2 r hr1
    · rcases List.mem_singleton.mp hr2 with rfl
      exact hd
  have hdup : ∃ r ∈ (index_video db (some n1) m1).1, r.name = pyStrip n3 :=
    ⟨_, hmem1, h3.symm⟩
  have e3 := index_video_dup (index_video db (some n1) m1).1 n3 m3 hdup
  refine ⟨by rw [e1], ?_, e3, ?_⟩
  · rw [index_video_fresh _ n2 m2 h2all]
  · rw [e3]
    exact hmem1

/-- C3 witness: on the empty store, indexing the captions returning
normalized names `Matrix` and `Inception` succeeds for both, and re-indexing
a caption that strips to `Matrix` is rejected as a duplicate with the
original record untouched. -/
theorem C3_duplicate_name_rejected_witness :
    (pyStrip " Matrix " ≠ pyStrip "Inception" ∧
      (∀ r ∈ ([] : List VideoRecord), r.name ≠ pyStrip " Matrix ") ∧
      (∀ r ∈ ([] : List VideoRecord), r.name ≠ pyStrip "Inception") ∧
      pyStrip "Matrix" = pyStrip " Matrix ") ∧
    ((index_video [] (some " Matrix ") 10).2 = .indexedOk " Matrix " ∧
     (index_video (index_video [] (some " Matrix ") 10).1
        (some "Inception") 20).2 = .indexedOk "Inception" ∧
     index_video (index_video [] (some " Matrix ") 10).1 (some "Matrix") 30 =
       ((index_video [] (some " Matrix ") 10).1, .duplicateName "Matrix") ∧
     { id := nextId [], name := pyStrip " Matrix ", message_id := 10 } ∈
       (index_video (index_video [] (some " Matrix ") 10).1
          (some "Matrix") 30).1) :=
  ⟨⟨by decide, by decide, by decide, by decide⟩,
   C3_duplicate_name_rejected [] " Matrix " "Inception" "Matrix" 10 20 30
     (by decide) (by decide) (by decide) (by decide)⟩

/-- C4 counterexample: with the single stored record named `MATRIX` and the
query `matrix`, no stored name contains the query as a (case-sensitive)
substring, yet `delete_video` removes the record and sends the success
report instead of leaving the store unchanged and reporting not-found: the
deletion match is the ASCII-case-insensitive LIKE, not case-sensitive
containment. -/
theorem C4_counterexample :
    delete_video true [⟨1, "MATRIX", 5⟩] "matrix" =
      ([], some (.deleted "matrix")) ∧
    specSubstringMatch "matrix" "MATRIX" = false := by
  exact ⟨rfl, rfl⟩

/-- C4 (amended): for an admin call with a nonempty wildcard-free query,
deletion removes exactly the records whose names contain the query
ASCII-case-insensitively; the success report is sent precisely when at least
one record matched, and with no match the store is unchanged and the distinct
not-found report is sent. -/
theorem C4_delete_all_ci_matches (db : List VideoRecord) (query : String)
    (hq : noWildcards query = true) (hne : query ≠ "") :
    delete_video true db query =
      if db.any (fun r => ciContains query r.name) then
        (db.filter (fun r => !(ciContains query r.name)),
         some (.deleted query))
      else (db, some .notFound) := by
  have hpred : (fun r : VideoRecord => sqlLikeAny query r.name) =
      (fun r : VideoRecord => ciContains query r.name) :=
    funext fun r => sqlLikeAny_eq_ciContains query r.name hq
  have hpredneg : (fun r : VideoRecord => !(sqlLikeAny query r.name)) =
      (fun r : VideoRecord => !(ciContains query r.name)) :=
    funext fun r => by rw [sqlLikeAny_eq_ciContains query r.name hq]
  rw [delete_video, if_neg (by simp), if_neg hne, hpred, hpredneg]
  by_cases h : db.any (fun r => ciContains query r.name) = true
  · rw [if_pos h]
    obtain ⟨r, hr, hcr⟩ := List.any_eq_true.mp h
    cases hf : db.find? (fun r => ciContains query r.name) with
    | none =>
      exact absurd hcr (by simpa using List.find?_eq_none.mp hf r hr)
    | some r1 => rfl
  · rw [if_neg h]
    cases hf : db.find? (fun r => ciContains query r.name) with
    | none => rfl
    | some r1 =>
      have hr1 := List.find?_some hf
      have hmem := List.mem_of_find?_eq_some hf
      exact absurd (List.any_eq_true.mpr ⟨r1, hmem, hr1⟩) h

/-- C4 witness: instantiation of the amended deletion theorem on a store
where the query `Matrix` matches two of three records: both are removed and
success is reported. -/
theorem C4_delete_all_ci_matches_witness :
    (noWildcards "Matrix" = true ∧ "Matrix" ≠ "") ∧
    delete_video true
        [⟨1, "matrix 1", 5⟩, ⟨2, "Inception", 6⟩, ⟨3, "The MATRIX", 7⟩]
        "Matrix" =
      if ([⟨1, "matrix 1", 5⟩, ⟨2, "Inception", 6⟩,
            (⟨3, "The MATRIX", 7⟩ : VideoRecord)]).any
          (fun r => ciContains "Matrix" r.name) then
        (([⟨1, "matrix 1", 5⟩, ⟨2, "Inception", 6⟩,
            (⟨3, "The MATRIX", 7⟩ : VideoRecord)]).filter
           (fun r => !(ciContains "Matrix" r.name)),
         some (.deleted "Matrix"))
      else ([⟨1, "matrix 1", 5⟩, ⟨2, "Inception", 6⟩,
              (⟨3, "The MATRIX", 7⟩ : VideoRecord)], some .notFound) :=
  ⟨⟨by decide, by decide⟩,
   C4_delete_all_ci_matches
     [⟨1, "matrix 1", 5⟩, ⟨2, "Inception", 6⟩, ⟨3, "The MATRIX", 7⟩]
     "Matrix" (by decide) (by decide)⟩

/-- C5: a transport failure while copying the resolved archived message is
reported to the requester with the failure detail and schedules no cleanup
task, on the deep-link path and on the search path alike. -/
theorem C5_copy_failure_no_cleanup (g : String → Except Unit String)
    (db : List VideoRecord) (chat : Nat) (warnRes : Except String Nat)
    (e : String) (vid q : String) (r1 r2 : VideoRecord)
    (hm : is_user_member g CHANNELS_TO_JOIN = true)
    (hf1 : findById db vid = some r1)
    (hf2 : findByNameLike db q = some r2) :
    (send_video_by_id g db chat (.error e) warnRes vid).replies =
      [.sendError e] ∧
    (send_video_by_id g db chat (.error e) warnRes vid).scheduled = none ∧
    (search_received_movie_name db chat (.error e) warnRes q).1.replies =
      [.sendError e] ∧
    (search_received_movie_name db chat (.error e) warnRes q).1.scheduled =
      none := by
  rw [send_video_by_id_copy_error g db chat warnRes vid r1 e hm hf1,
    search_copy_error db chat warnRes q r2 e hf2]
  exact ⟨rfl, rfl, rfl, rfl⟩

/-- C5 witness: the copy failure `boom` on the concrete store, for both the
deep link `5` and the search query `Matrix`. -/
theorem C5_copy_failure_no_cleanup_witness :
    (is_user_member (fun _ => .ok "member") CHANNELS_TO_JOIN = true ∧
      findById [⟨5, "Matrix", 50⟩] "5" = some ⟨5, "Matrix", 50⟩ ∧
      findByNameLike [⟨5, "Matrix", 50⟩] "Matrix" = some ⟨5, "Matrix", 50⟩) ∧
    ((send_video_by_id (fun _ => .ok "member") [⟨5, "Matrix", 50⟩] 100
        (.error "boom") (.ok 8) "5").replies = [.sendError "boom"] ∧
     (send_video_by_id (fun _ => .ok "member") [⟨5, "Matrix", 50⟩] 100
        (.error "boom") (.ok 8) "5").scheduled = none ∧
     (search_received_movie_name [⟨5, "Matrix", 50⟩] 100 (.error "boom")
        (.ok 8) "Matrix").1.replies = [.sendError "boom"] ∧
     (search_received_movie_name [⟨5, "Matrix", 50⟩] 100 (.error "boom")
        (.ok 8) "Matrix").1.scheduled = none) :=
  ⟨⟨rfl, rfl, rfl⟩,
   C5_copy_failure_no_cleanup (fun _ => .ok "member") [⟨5, "Matrix", 50⟩]
     100 (.ok 8) "boom" "5" "Matrix" ⟨5, "Matrix", 50⟩ ⟨5, "Matrix", 50⟩
     rfl rfl rfl⟩

/-- C6: after its delay the scheduled cleanup attempts to delete every message
id in the given order, each attempt independent of the others: the run is
exactly the list of per-id outcomes of the deletion oracle, so a failure on
one id never prevents the attempts on the remaining ids. -/
theorem C6_deletions_independent (deleteMsg : Nat → Except String Unit)
    (message_ids : List Nat) :
    delete_messages_after_delay deleteMsg message_ids =
      message_ids.map (fun m => (m, deleteMsg m)) ∧
    (delete_messages_after_delay deleteMsg message_ids).map Prod.fst =
      message_ids := by
  have h : delete_messages_after_delay deleteMsg message_ids =
      message_ids.map (fun m => (m, deleteMsg m)) := by
    induction message_ids with
    | nil => rfl
    | cons m rest ih => simp [delete_messages_after_delay, ih]
  refine ⟨h, ?_⟩
  rw [h]
  clear h
  induction message_ids with
  | nil => rfl
  | cons m rest ih => simp [ih]

/-- C7: a user who fails the membership gate and sends a deep-link start
request receives the join prompt carrying one join button per required
channel; no copy is attempted and no cleanup is scheduled. -/
theorem C7_non_member_deep_link (users : List Nat) (uid : Nat)
    (g : String → Except Unit String) (db : List VideoRecord) (chat : Nat)
    (copyRes warnRes : Except String Nat) (a : String) (rest : List String)
    (hm : is_user_member g CHANNELS_TO_JOIN = false) :
    (start users uid g db chat copyRes warnRes (a :: rest)).2 =
      { replies := [.joinPrompt (CHANNELS_TO_JOIN.map joinButtonUrl)],
        scheduled := none, copyAttempted := false, copiedFrom := none,
        gateChecked := true } := by
  show send_video_by_id g db chat copyRes warnRes a = _
  exact send_video_by_id_not_member g db chat copyRes warnRes a hm

/-- C7 witness: a lookup oracle that reports the user as having left the
required channel, with the deep-link argument `5`. -/
theorem C7_non_member_deep_link_witness :
    is_user_member (fun _ => .ok "left") CHANNELS_TO_JOIN = false ∧
    (start [] 42 (fun _ => .ok "left") [⟨5, "Matrix", 50⟩] 100 (.ok 7) (.ok 8)
        ["5"]).2 =
      { replies := [.joinPrompt (CHANNELS_TO_JOIN.map joinButtonUrl)],
        scheduled := none, copyAttempted := false, copiedFrom := none,
        gateChecked := true } :=
  ⟨rfl,
   C7_non_member_deep_link [] 42 (fun _ => .ok "left") [⟨5, "Matrix", 50⟩]
     100 (.ok 7) (.ok 8) "5" [] rfl⟩

/-- C8 counterexample: the conversational query step delivers content — the
copy is made and cleanup scheduled — while performing no membership check in
that same request-handling step (`search_received_movie_name` contains no
`is_user_member` call), so the claim that content is never delivered without
a membership check in the handling of that request is false. -/
theorem C8_counterexample :
    (search_received_movie_name [⟨1, "Matrix", 11⟩] 100 (.ok 7) (.ok 8)
        "Matrix").1 =
      { replies := [.deletionWarning], scheduled := some (100, [7, 8], 30),
        copyAttempted := true, copiedFrom := some 11, gateChecked := false } :=
  rfl

/-- C8 (amended): membership results are never cached — the deep-link handler
checks membership on every invocation and only attempts the copy when the
current lookup passes (and a record resolves); the search entry point also
checks membership on every invocation; but the query-handling step of the
search path performs no membership check of its own, and attempts the copy
exactly when the name resolves, independent of membership. -/
theorem C8_gate_per_request (g : String → Except Unit String)
    (db : List VideoRecord) (chat : Nat) (c w : Except String Nat)
    (vid : String) (db2 : List VideoRecord) (chat2 : Nat)
    (c2 w2 : Except String Nat) (q2 : String) :
    (send_video_by_id g db chat c w vid).gateChecked = true ∧
    (send_video_by_id g db chat c w vid).copyAttempted =
      (is_user_member g CHANNELS_TO_JOIN && (findById db vid).isSome) ∧
    (ask_for_movie_name g).1.gateChecked = true ∧
    (search_received_movie_name db2 chat2 c2 w2 q2).1.gateChecked = false ∧
    (search_received_movie_name db2 chat2 c2 w2 q2).1.copyAttempted =
      (findByNameLike db2 q2).isSome := by
  have hsend : (send_video_by_id g db chat c w vid).gateChecked = true ∧
      (send_video_by_id g db chat c w vid).copyAttempted =
        (is_user_member g CHANNELS_TO_JOIN && (findById db vid).isSome) := by
    cases hm : is_user_member g CHANNELS_TO_JOIN with
    | false =>
      rw [send_video_by_id_not_member g db chat c w vid hm]
      exact ⟨rfl, rfl⟩
    | true =>
      cases hf : findById db vid with
      | none =>
        rw [send_video_by_id_not_found g db chat c w vid hm hf]
        exact ⟨rfl, rfl⟩
      | some r =>
        cases c with
        | error e =>
          rw [send_video_by_id_copy_error g db chat w vid r e hm hf]
          exact ⟨rfl, rfl⟩
        | ok sid =>
          cases w with
          | error e =>
            rw [send_video_by_id_warn_error g db chat sid vid r e hm hf]
            exact ⟨rfl, rfl⟩
          | ok wid =>
            rw [send_video_by_id_delivered g db chat sid wid vid r hm hf]
            exact ⟨rfl, rfl⟩
  have hask : (ask_for_movie_name g).1.gateChecked = true := by
    cases hm : is_user_member g CHANNELS_TO_JOIN <;>
      simp [ask_for_movie_name, hm]
  have hsearch :
      (search_received_movie_name db2 chat2 c2 w2 q2).1.gateChecked = false ∧
      (search_received_movie_name db2 chat2 c2 w2 q2).1.copyAttempted =
        (findByNameLike db2 q2).isSome := by
    cases hfn : findByNameLike db2 q2 with
    | none =>
      rw [search_not_found db2 chat2 c2 w2 q2 hfn]
      exact ⟨rfl, rfl⟩
    | some r =>
      cases c2 with
      | error e =>
        rw [search_copy_error db2 chat2 w2 q2 r e hfn]
        exact ⟨rfl, rfl⟩
      | ok sid =>
        cases w2 with
        | error e =>
          rw [search_warn_error db2 chat2 sid q2 r e hfn]
          exact ⟨rfl, rfl⟩
        | ok wid =>
          rw [search_delivered db2 chat2 sid wid q2 r hfn]
          exact ⟨rfl, rfl⟩
  exact ⟨hsend.1, hsend.2, hask, hsearch.1, hsearch.2⟩

/-- C9: identifier resolution is exact even though the deep-link argument
arrives as a string: for a member, the copy is attempted exactly when some
stored record's id is the numeric value of the argument, and the invalid-link
report is sent exactly when the id resolves to nothing. -/
theorem C9_exact_id_resolution (g : String → Except Unit String)
    (db : List VideoRecord) (chat : Nat) (copyRes warnRes : Except String Nat)
    (vid : String)
    (hm : is_user_member g CHANNELS_TO_JOIN = true) :
    ((send_video_by_id g db chat copyRes warnRes vid).copyAttempted = true ↔
      ∃ r ∈ db, sqlTextToInt vid = some r.id) ∧
    ((send_video_by_id g db chat copyRes warnRes vid).replies =
        [.invalidLink] ↔ findById db vid = none) := by
  have hiff : (∃ r, findById db vid = some r) ↔
      ∃ r ∈ db, sqlTextToInt vid = some r.id := by
    cases hp : sqlTextToInt vid with
    | none => simp [findById, hp]
    | some n =>
      simp only [findById, hp]
      constructor
      · rintro ⟨r, hr⟩
        have hmem := List.mem_of_find?_eq_some hr
        have hid : r.id = n := by
          simpa using List.find?_some (p := fun x : VideoRecord => x.id == n) hr
        exact ⟨r, hmem, by rw [hid]⟩
      · rintro ⟨r, hr, hn⟩
        injection hn with hn
        have : (db.find? (fun r => r.id == n)).isSome = true :=
          List.find?_isSome.mpr ⟨r, hr, by simp [hn]⟩
        exact Option.isSome_iff_exists.mp this
  cases hf : findById db vid with
  | none =>
    rw [send_video_by_id_not_found g db chat copyRes warnRes vid hm hf]
    refine ⟨?_, by simp⟩
    constructor
    · intro h
      exact absurd h (by simp)
    · intro hex
      obtain ⟨r1, hr1⟩ := hiff.mpr hex
      rw [hf] at hr1
      exact Option.noConfusion hr1
  | some r =>
    have hex : ∃ x ∈ db, sqlTextToInt vid = some x.id := hiff.mp ⟨r, hf⟩
    have hrep : ∀ o : HandlerOutcome,
        o.copyAttempted = true → o.replies ≠ [.invalidLink] →
        ((o.copyAttempted = true ↔ ∃ x ∈ db, sqlTextToInt vid = some x.id) ∧
         (o.replies = [.invalidLink] ↔ (some r : Option VideoRecord) = none)) := by
      intro o h1 h2
      refine ⟨⟨fun _ => hex, fun _ => h1⟩, ⟨fun h => absurd h h2, ?_⟩⟩
      intro h
      exact Option.noConfusion h
    cases copyRes with
    | error e =>
      rw [send_video_by_id_copy_error g db chat warnRes vid r e hm hf]
      apply hrep
      · rfl
      · simp
    | ok sid =>
      cases warnRes with
      | error e =>
        rw [send_video_by_id_warn_error g db chat sid vid r e hm hf]
        apply hrep
        · rfl
        · simp
      | ok wid =>
        rw [send_video_by_id_delivered g db chat sid wid vid r hm hf]
        apply hrep
        · rfl
        · simp

/-- C9 witness: with only id 5 stored, the member deep links `5` and `6`:
resolving `5` attempts the copy, resolving `6` yields the invalid-link
report. -/
theorem C9_exact_id_resolution_witness :
    is_user_member (fun _ => .ok "member") CHANNELS_TO_JOIN = true ∧
    (((send_video_by_id (fun _ => .ok "member") [⟨5, "X", 50⟩] 100 (.ok 7)
          (.ok 8) "5").copyAttempted = true ↔
        ∃ r ∈ [(⟨5, "X", 50⟩ : VideoRecord)], sqlTextToInt "5" = some r.id) ∧
      ((send_video_by_id (fun _ => .ok "member") [⟨5, "X", 50⟩] 100 (.ok 7)
          (.ok 8) "5").replies = [.invalidLink] ↔
        findById [⟨5, "X", 50⟩] "5" = none)) ∧
    (((send_video_by_id (fun _ => .ok "member") [⟨5, "X", 50⟩] 100 (.ok 7)
          (.ok 8) "6").copyAttempted = true ↔
        ∃ r ∈ [(⟨5, "X", 50⟩ : VideoRecord)], sqlTextToInt "6" = some r.id) ∧
      ((send_video_by_id (fun _ => .ok "member") [⟨5, "X", 50⟩] 100 (.ok 7)
          (.ok 8) "6").replies = [.invalidLink] ↔
        findById [⟨5, "X", 50⟩] "6" = none)) :=
  ⟨rfl,
   C9_exact_id_resolution (fun _ => .ok "member") [⟨5, "X", 50⟩] 100 (.ok 7)
     (.ok 8) "5" rfl,
   C9_exact_id_resolution (fun _ => .ok "member") [⟨5, "X", 50⟩] 100 (.ok 7)
     (.ok 8) "6" rfl⟩

/-- C10: when the copy succeeds but sending the warning notice fails, the
failure detail is reported to the user and no cleanup is scheduled, on both
paths — in particular the already delivered video message is never scheduled
for auto-deletion. -/
theorem C10_warn_failure_no_cleanup (g : String → Except Unit String)
    (db : List VideoRecord) (chat sid : Nat) (e : String) (vid q : String)
    (r1 r2 : VideoRecord)
    (hm : is_user_member g CHANNELS_TO_JOIN = true)
    (hf1 : findById db vid = some r1)
    (hf2 : findByNameLike db q = some r2) :
    send_video_by_id g db chat (.ok sid) (.error e) vid =
      { replies := [.sendError e], scheduled := none, copyAttempted := true,
        copiedFrom := some r1.message_id, gateChecked := true } ∧
    (search_received_movie_name db chat (.ok sid) (.error e) q).1 =
      { replies := [.sendError e], scheduled := none, copyAttempted := true,
        copiedFrom := some r2.message_id, gateChecked := false } := by
  refine ⟨send_video_by_id_warn_error g db chat sid vid r1 e hm hf1, ?_⟩
  rw [search_warn_error db chat sid q r2 e hf2]

/-- C10 witness: the copy has succeeded as message 7 when the warning send
fails with `boom`, for the deep link `5` and the search query `Matrix`. -/
theorem C10_warn_failure_no_cleanup_witness :
    (is_user_member (fun _ => .ok "member") CHANNELS_TO_JOIN = true ∧
      findById [⟨5, "Matrix", 50⟩] "5" = some ⟨5, "Matrix", 50⟩ ∧
      findByNameLike [⟨5, "Matrix", 50⟩] "Matrix" = some ⟨5, "Matrix", 50⟩) ∧
    (send_video_by_id (fun _ => .ok "member") [⟨5, "Matrix", 50⟩] 100
        (.ok 7) (.error "boom") "5" =
      { replies := [.sendError "boom"], scheduled := none,
        copyAttempted := true, copiedFrom := some 50, gateChecked := true } ∧
     (search_received_movie_name [⟨5, "Matrix", 50⟩] 100 (.ok 7)
        (.error "boom") "Matrix").1 =
      { replies := [.sendError "boom"], scheduled := none,
        copyAttempted := true, copiedFrom := some 50,
        gateChecked := false }) :=
  ⟨⟨rfl, rfl, rfl⟩,
   C10_warn_failure_no_cleanup (fun _ => .ok "member") [⟨5, "Matrix", 50⟩]
     100 7 "boom" "5" "Matrix" ⟨5, "Matrix", 50⟩ ⟨5, "Matrix", 50⟩
     rfl rfl rfl⟩

end LexoFilm
